import Mathlib

/-!
Shallow embedding of `bokeh/command/subcommands/png.py` (the `PNG`
subcommand of the bokeh CLI).

The module is glue code: `invoke` wraps the inherited per-file loop in a
webdriver create/terminate bracket, `write_file` writes the PNG bytes to a
named file or to stdout, and `file_contents` optionally overrides a single
plot's size, asks `get_screenshot_as_png` for an image, saves it in PNG
format into an in-memory `io.BytesIO` buffer and returns the buffer's
content read from position 0.

External collaborators (the screenshot routine, the PIL-style image `save`
method, the webdriver, and the inherited `FileOutputSubcommand.invoke` /
`after_write_file`) are opaque in the source, so they enter the embedding
as function parameters (possibly failing: `Except`), or as events in an
output trace.  Python's in-place mutation of the document is modelled by
returning the updated document; `warnings.warn` is modelled by a Boolean
flag; the side effects of `write_file` and `invoke` are modelled as event
traces, with a small file-system interpreter giving traces their meaning.
-/

namespace BokehPng

/-- The two CLI arguments `file_contents` consults: `--width` and
`--height`, each `type=int` with `default=None` (lines 66-80 of the
source). -/
structure Args where
  width : Option Int
  height : Option Int
  deriving DecidableEq, Repr

/-- A document root: either a `Plot` instance, carrying its `plot_width`
and `plot_height` attributes, or some other (non-`Plot`) layout object,
identified by an opaque tag. -/
inductive Root where
  | plot (plot_width plot_height : Int) : Root
  | other (tag : Nat) : Root
  deriving DecidableEq, Repr

/-- `isinstance(r, Plot)` for a root. -/
def Root.isPlot : Root → Bool
  | .plot _ _ => true
  | .other _ => false

/-- A bokeh document, reduced to its list of roots (`doc.roots`), which is
all `png.py` touches. -/
structure Doc where
  roots : List Root
  deriving DecidableEq, Repr

/-- Python truthiness of `a or b` where `a` is an `Optional[int]` and `b`
an `int`: both `None` and `0` are falsy, so they yield `b`; any nonzero
`a` yields itself.  This is the semantics of the assignments
`plot.plot_height = args.height or plot.plot_height` (lines 116-117). -/
def orTruthy (a : Option Int) (b : Int) : Int :=
  match a with
  | none => b
  | some v => if v = 0 then b else v

/-- Lines 110-117 of `file_contents`: when `--width` or `--height` was
given (`is not None`), either override the sizes of the unique `Plot`
root, or warn and leave the document alone.  Returns the (possibly
updated) document together with whether `warnings.warn` was called.

The source guard is `len(layout) != 1 or not isinstance(layout[0], Plot)`
for the warning branch; its complement, `len(layout) == 1 and
isinstance(layout[0], Plot)`, is exactly the pattern
`[Root.plot pw ph]`. -/
def size_step (args : Args) (doc : Doc) : Doc × Bool :=
  if args.width.isSome || args.height.isSome then
    match doc.roots with
    | [Root.plot pw ph] =>
        (⟨[Root.plot (orTruthy args.width pw) (orTruthy args.height ph)]⟩, false)
    | _ => (doc, true)
  else
    (doc, false)

/-- `len(layout) == 1 and isinstance(layout[0], Plot)`: the document roots
form a single-plot layout. -/
def single_plot : List Root → Bool
  | [r] => r.isPlot
  | _ => false

/-- An `io.BytesIO` object: a growable byte buffer with a current
position. -/
structure BytesBuf where
  data : List Nat
  pos : Nat
  deriving DecidableEq, Repr

/-- `io.BytesIO()`: fresh empty buffer at position 0. -/
def BytesBuf.empty : BytesBuf := ⟨[], 0⟩

/-- `buf.write(bs)` semantics: overwrite starting at the current position,
extending the buffer as needed; the position advances past the written
bytes. -/
def BytesBuf.write (b : BytesBuf) (bs : List Nat) : BytesBuf :=
  ⟨b.data.take b.pos ++ bs ++ b.data.drop (b.pos + bs.length), b.pos + bs.length⟩

/-- `buf.seek(n)`: reposition. -/
def BytesBuf.seek (b : BytesBuf) (n : Nat) : BytesBuf :=
  ⟨b.data, n⟩

/-- `buf.read()` with no argument: everything from the current position to
the end, leaving the position at the end. -/
def BytesBuf.readAll (b : BytesBuf) : List Nat × BytesBuf :=
  (b.data.drop b.pos, ⟨b.data, b.data.length⟩)

/-- Result of `file_contents`: the document (whose single plot may have
been mutated in place), whether a warning was issued, and either the PNG
bytes or the exception propagated from a collaborator. -/
structure FCOut (Err : Type) where
  doc : Doc
  warned : Bool
  contents : Except Err (List Nat)

/-- Lines 106-123, `PNG.file_contents(self, args, doc)`.

`get_screenshot_as_png` is the external capture routine
(`bokeh.io.export.get_screenshot_as_png`, called with the document and
`driver=self.driver`); `save` models the PIL image method
`image.save(buf, "png")` by producing the PNG-encoded bytes that the call
writes into the buffer.  Both may raise, modelled by `Except`. -/
def file_contents {Image Err Driver : Type}
    (get_screenshot_as_png : Doc → Driver → Except Err Image)
    (save : Image → Except Err (List Nat))
    (driver : Driver) (args : Args) (doc : Doc) : FCOut Err :=
  let sd := size_step args doc
  match get_screenshot_as_png sd.1 driver with
  | .error e => ⟨sd.1, sd.2, .error e⟩
  | .ok image =>
    match save image with
    | .error e => ⟨sd.1, sd.2, .error e⟩
    | .ok png =>
      let buf := BytesBuf.empty
      let buf := buf.write png
      let buf := buf.seek 0
      ⟨sd.1, sd.2, .ok buf.readAll.1⟩

/-- Observable side effects of `write_file`.  `fileOpen` is
`io.open(filename, "w+b")` (create or truncate); `afterWriteFile` records
the call `self.after_write_file(args, filename, doc)` with the arguments
it received (the inherited callee is opaque). -/
inductive Event where
  | stdoutWrite (bs : List Nat)
  | fileOpen (name : String)
  | fileWrite (name : String) (bs : List Nat)
  | fileClose (name : String)
  | afterWriteFile (args : Args) (name : String) (doc : Doc)
  deriving DecidableEq, Repr

/-- Result of `write_file`: the document as left by `file_contents`, the
warning flag, the trace of output effects, and normal return or the
propagated exception. -/
structure WFOut (Err : Type) where
  doc : Doc
  warned : Bool
  events : List Event
  result : Except Err Unit

/-- Lines 94-104, `PNG.write_file(self, args, filename, doc)`: compute
`file_contents` first; on `'-'` write the bytes to `sys.stdout.buffer`,
otherwise open the named file with mode `"w+b"`, write the bytes and close
it (the `with` block); finally call `after_write_file`.  If
`file_contents` raises, the exception propagates before any output
destination is touched, so the trace is empty. -/
def write_file {Image Err Driver : Type}
    (get_screenshot_as_png : Doc → Driver → Except Err Image)
    (save : Image → Except Err (List Nat))
    (driver : Driver) (args : Args) (filename : String) (doc : Doc) : WFOut Err :=
  let fc := file_contents get_screenshot_as_png save driver args doc
  match fc.contents with
  | .error e => ⟨fc.doc, fc.warned, [], .error e⟩
  | .ok contents =>
    let writeEvents :=
      if filename = "-" then
        [Event.stdoutWrite contents]
      else
        [Event.fileOpen filename, Event.fileWrite filename contents,
         Event.fileClose filename]
    ⟨fc.doc, fc.warned, writeEvents ++ [Event.afterWriteFile args filename fc.doc], .ok ()⟩

/-- A file system plus the stdout byte stream, to interpret traces. -/
structure FileSys where
  stdout : List Nat
  files : List (String × List Nat)
  deriving DecidableEq, Repr

/-- Set (or create) the content of the named file. -/
def setFile : List (String × List Nat) → String → List Nat → List (String × List Nat)
  | [], name, bs => [(name, bs)]
  | (n, c) :: rest, name, bs =>
      if n = name then (n, bs) :: rest else (n, c) :: setFile rest name bs

/-- Look up the content of the named file. -/
def getFile : List (String × List Nat) → String → Option (List Nat)
  | [], _ => none
  | (n, c) :: rest, name => if n = name then some c else getFile rest name

/-- Interpret one output event: stdout writes append; opening with
`"w+b"` truncates to empty (creating the file if absent); a file write
appends to the (post-truncation) content; close and the
`after_write_file` call do not change the file system. -/
def applyEvent (fs : FileSys) : Event → FileSys
  | .stdoutWrite bs => ⟨fs.stdout ++ bs, fs.files⟩
  | .fileOpen name => ⟨fs.stdout, setFile fs.files name []⟩
  | .fileWrite name bs =>
      ⟨fs.stdout, setFile fs.files name (((getFile fs.files name).getD []) ++ bs)⟩
  | .fileClose _ => fs
  | .afterWriteFile _ _ _ => fs

/-- Interpret a trace left to right. -/
def runEvents (fs : FileSys) : List Event → FileSys
  | [] => fs
  | e :: rest => runEvents (applyEvent fs e) rest

/-- Webdriver lifecycle events around the inherited per-file processing
(the inherited `FileOutputSubcommand.invoke` is opaque: it contributes an
arbitrary trace of `processed` events). -/
inductive SessEvent (Driver : Type) where
  | createWebdriver (d : Driver)
  | terminateWebdriver (d : Driver)
  | processed (filename : String)
  deriving DecidableEq, Repr

/-- `try: body finally: fin` at the level of traces: the finaliser events
happen after the body's events whether the body returned normally or
raised, and the body's outcome (normal return or exception) is
preserved. -/
def tryFinallySeq {Err Driver : Type}
    (body : List (SessEvent Driver) × Except Err Unit)
    (fin : List (SessEvent Driver)) : List (SessEvent Driver) × Except Err Unit :=
  (body.1 ++ fin, body.2)

/-- Lines 84-92, `PNG.invoke(self, args)`:
`self.driver = create_webdriver()`, then
`try: super().invoke(args) finally: terminate_webdriver(self.driver)`.
`create_webdriver` and the inherited `invoke` (the per-file loop) are
external, so they are parameters; `superInvoke` returns the trace of its
per-file processing together with its outcome. -/
def invoke {Err Driver : Type}
    (create_webdriver : Unit → Driver)
    (superInvoke : Args → Driver → List (SessEvent Driver) × Except Err Unit)
    (args : Args) : List (SessEvent Driver) × Except Err Unit :=
  let driver := create_webdriver ()
  let r := tryFinallySeq (superInvoke args driver) [SessEvent.terminateWebdriver driver]
  (SessEvent.createWebdriver driver :: r.1, r.2)

/-! Concrete instances of the opaque collaborators, used to evaluate the
theorems on concrete inputs (images are `Nat` tags, exceptions are `Nat`
codes, the driver is a `Nat` handle). -/

/-- A screenshot routine that always succeeds with image tag 7. -/
def shotOkSeven : Doc → Nat → Except Nat Nat := fun _ _ => Except.ok 7

/-- A screenshot routine that always raises (exception code 3). -/
def shotFail : Doc → Nat → Except Nat Nat := fun _ _ => Except.error 3

/-- A PNG encoder producing three bytes from the image tag. -/
def saveOkBytes : Nat → Except Nat (List Nat) := fun i => Except.ok [i, 0, i]

/-- No size arguments given. -/
def argsNone : Args := ⟨none, none⟩

/-- `--width 0`, no `--height`. -/
def argsZeroWidth : Args := ⟨some 0, none⟩

/-- A document with a single `Plot` root of size 5 by 6. -/
def docOnePlot : Doc := ⟨[Root.plot 5 6]⟩

/-- A file system with some stdout history and a pre-existing file. -/
def fsPre : FileSys := ⟨[1], [("out.png", [9, 9, 9, 9])]⟩

/-! Helper lemmas shared by the claim theorems. -/

/-- The document returned by `file_contents` is the one produced by the
size-override step, on every path (lines 119-123 never touch it). -/
theorem file_contents_doc {Image Err Driver : Type}
    (shot : Doc → Driver → Except Err Image) (save : Image → Except Err (List Nat))
    (driver : Driver) (args : Args) (doc : Doc) :
    (file_contents shot save driver args doc).doc = (size_step args doc).1 := by
  unfold file_contents
  cases h : shot (size_step args doc).1 driver with
  | error e => simp [h]
  | ok img => cases h2 : save img <;> simp [h, h2]

/-- The warning flag returned by `file_contents` is the one produced by
the size-override step. -/
theorem file_contents_warned {Image Err Driver : Type}
    (shot : Doc → Driver → Except Err Image) (save : Image → Except Err (List Nat))
    (driver : Driver) (args : Args) (doc : Doc) :
    (file_contents shot save driver args doc).warned = (size_step args doc).2 := by
  unfold file_contents
  cases h : shot (size_step args doc).1 driver with
  | error e => simp [h]
  | ok img => cases h2 : save img <;> simp [h, h2]

/-- The contents returned by `file_contents` are the screenshot of the
post-override document piped through the PNG encoder, errors
propagating. -/
theorem file_contents_contents {Image Err Driver : Type}
    (shot : Doc → Driver → Except Err Image) (save : Image → Except Err (List Nat))
    (driver : Driver) (args : Args) (doc : Doc) :
    (file_contents shot save driver args doc).contents
      = (shot (size_step args doc).1 driver).bind save := by
  unfold file_contents
  cases h : shot (size_step args doc).1 driver with
  | error e => simp [h, Except.bind]
  | ok img =>
    cases h2 : save img with
    | error e => simp [h, h2, Except.bind]
    | ok png =>
      simp [h, h2, Except.bind, BytesBuf.empty, BytesBuf.write, BytesBuf.seek,
        BytesBuf.readAll]

/-- The warning flag of the size step is exactly: some size argument was
given and the roots are not a single-plot layout. -/
theorem size_step_warned (args : Args) (doc : Doc) :
    (size_step args doc).2
      = ((args.width.isSome || args.height.isSome) && ! single_plot doc.roots) := by
  obtain ⟨roots⟩ := doc
  by_cases h : (args.width.isSome || args.height.isSome) = true
  · rcases roots with _ | ⟨pw | t, _ | ⟨r2, rest⟩⟩ <;>
      simp_all [size_step, single_plot, Root.isPlot]
  · simp_all [size_step]

/-- When the roots are not a single-plot layout the size step leaves the
document unchanged. -/
theorem size_step_fst_of_not_single (args : Args) (doc : Doc)
    (h : single_plot doc.roots = false) : (size_step args doc).1 = doc := by
  obtain ⟨roots⟩ := doc
  rcases roots with _ | ⟨pw | t, _ | ⟨r2, rest⟩⟩ <;>
    simp_all [size_step, single_plot, Root.isPlot] <;> split <;> rfl

/-- Setting a file's content and reading it back. -/
theorem getFile_setFile (l : List (String × List Nat)) (name : String) (bs : List Nat) :
    getFile (setFile l name bs) name = some bs := by
  induction l with
  | nil => simp [setFile, getFile]
  | cons p rest ih =>
    obtain ⟨n, c⟩ := p
    by_cases h : n = name <;> simp [setFile, getFile, h, ih]

/-- Setting a file's content twice keeps only the second write. -/
theorem setFile_setFile (l : List (String × List Nat)) (name : String) (a b : List Nat) :
    setFile (setFile l name a) name b = setFile l name b := by
  induction l with
  | nil => simp [setFile]
  | cons p rest ih =>
    obtain ⟨n, c⟩ := p
    by_cases h : n = name <;> simp [setFile, h, ih]

/-- Interpreting the open/write/close/after trace of a named-file write:
stdout is untouched and the file ends up holding exactly the written
bytes, whatever it held before. -/
theorem runEvents_fileTriple (fs : FileSys) (n : String) (bs : List Nat)
    (args : Args) (doc : Doc) :
    runEvents fs [Event.fileOpen n, Event.fileWrite n bs, Event.fileClose n,
        Event.afterWriteFile args n doc]
      = ⟨fs.stdout, setFile fs.files n bs⟩ := by
  simp [runEvents, applyEvent, getFile_setFile, setFile_setFile]

/-- Claim C1: for every document, `file_contents` returns exactly the
byte buffer produced by PNG-encoding the screenshot image obtained from
`get_screenshot_as_png` for that document and the stored webdriver
session: the returned bytes are the complete content of the in-memory
buffer that `image.save` wrote in PNG format, read from position 0. -/
theorem C1_file_contents_png_buffer {Image Err Driver : Type}
    (shot : Doc → Driver → Except Err Image) (save : Image → Except Err (List Nat))
    (driver : Driver) (args : Args) (doc : Doc) (img : Image) (png : List Nat)
    (hshot : shot (file_contents shot save driver args doc).doc driver = Except.ok img)
    (hsave : save img = Except.ok png) :
    (file_contents shot save driver args doc).contents
      = Except.ok ((BytesBuf.empty.write png).seek 0).readAll.1
    ∧ ((BytesBuf.empty.write png).seek 0).readAll.1 = png := by
  rw [file_contents_doc] at hshot
  constructor
  · rw [file_contents_contents, hshot]
    simp [Except.bind, hsave, BytesBuf.empty, BytesBuf.write, BytesBuf.seek,
      BytesBuf.readAll]
  · simp [BytesBuf.empty, BytesBuf.write, BytesBuf.seek, BytesBuf.readAll]

/-- Witness for C1 at a concrete document, screenshot routine and
encoder. -/
theorem C1_file_contents_png_buffer_witness :
    (file_contents shotOkSeven saveOkBytes 0 argsNone docOnePlot).contents
      = Except.ok ((BytesBuf.empty.write [7, 0, 7]).seek 0).readAll.1
    ∧ ((BytesBuf.empty.write [7, 0, 7]).seek 0).readAll.1 = [7, 0, 7] :=
  C1_file_contents_png_buffer shotOkSeven saveOkBytes 0 argsNone docOnePlot 7
    [7, 0, 7] rfl rfl

/-- Claim C2: `invoke` creates a webdriver session before any per-file
processing, and terminates that same session afterwards, whether the
inherited `invoke` returned normally or raised: the trace starts with
`createWebdriver`, then the inherited processing, then
`terminateWebdriver`, and the inherited outcome (normal or exceptional)
is preserved. -/
theorem C2_invoke_webdriver_lifecycle {Err Driver : Type}
    (create_webdriver : Unit → Driver)
    (superInvoke : Args → Driver → List (SessEvent Driver) × Except Err Unit)
    (args : Args) :
    (invoke create_webdriver superInvoke args).1
      = SessEvent.createWebdriver (create_webdriver ())
          :: ((superInvoke args (create_webdriver ())).1
            ++ [SessEvent.terminateWebdriver (create_webdriver ())])
    ∧ (invoke create_webdriver superInvoke args).2
        = (superInvoke args (create_webdriver ())).2 :=
  ⟨rfl, rfl⟩

/-- Claim C3: `file_contents` warns if and only if a size argument was
given and the roots are not a single-plot layout; in the warning case the
document is left unchanged, and on every path the export still proceeds:
the contents are the screenshot of the resulting document piped through
the PNG encoder. -/
theorem C3_warning_characterisation {Image Err Driver : Type}
    (shot : Doc → Driver → Except Err Image) (save : Image → Except Err (List Nat))
    (driver : Driver) (args : Args) (doc : Doc) :
    (file_contents shot save driver args doc).warned
      = ((args.width.isSome || args.height.isSome) && ! single_plot doc.roots)
    ∧ (file_contents shot save driver args doc).doc
      = (if ((args.width.isSome || args.height.isSome) && ! single_plot doc.roots) = true
          then doc else (size_step args doc).1)
    ∧ (file_contents shot save driver args doc).contents
      = (shot (file_contents shot save driver args doc).doc driver).bind save := by
  refine ⟨?_, ?_, ?_⟩
  · rw [file_contents_warned, size_step_warned]
  · rw [file_contents_doc]
    by_cases h : ((args.width.isSome || args.height.isSome) && ! single_plot doc.roots) = true
    · rw [if_pos h]
      rw [Bool.and_eq_true] at h
      exact size_step_fst_of_not_single args doc (by simpa using h.2)
    · rw [if_neg h]
  · rw [file_contents_doc, file_contents_contents]

/-- Claim C4 as stated is false: with `--width 0` on a single-plot
document, `args.width` is not `None`, yet the plot's width stays 5
instead of becoming 0 (the truthiness short-circuit swallows 0). -/
theorem C4_counterexample :
    argsZeroWidth.width ≠ none
    ∧ (file_contents shotOkSeven saveOkBytes 0 argsZeroWidth docOnePlot).doc.roots
        = [Root.plot 5 6]
    ∧ (file_contents shotOkSeven saveOkBytes 0 argsZeroWidth docOnePlot).doc.roots
        ≠ [Root.plot 0 6] := by
  refine ⟨by decide, by decide, by decide⟩

/-- Claim C4, amended: for a document with exactly one `Plot` root, a
given width that is nonzero does become the plot's width (and the height
ends up as `orTruthy args.height` of the old height: applied when given
and nonzero, kept otherwise); the override is applied before the
screenshot is requested, since the contents are the screenshot of the
already-updated document. -/
theorem C4_nonzero_width_override {Image Err Driver : Type}
    (shot : Doc → Driver → Except Err Image) (save : Image → Except Err (List Nat))
    (driver : Driver) (args : Args) (doc : Doc) (pw ph w : Int)
    (hroots : doc.roots = [Root.plot pw ph])
    (hw : args.width = some w) (hw0 : w ≠ 0) :
    (file_contents shot save driver args doc).doc.roots
      = [Root.plot w (orTruthy args.height ph)]
    ∧ (file_contents shot save driver args doc).contents
      = (shot (file_contents shot save driver args doc).doc driver).bind save := by
  constructor
  · rw [file_contents_doc]
    obtain ⟨roots⟩ := doc
    simp only at hroots
    subst hroots
    simp [size_step, hw, orTruthy, hw0]
  · rw [file_contents_doc, file_contents_contents]

/-- Witness for C4 (amended) with `--width 9 --height 0` on the 5-by-6
plot. -/
theorem C4_nonzero_width_override_witness :
    (file_contents shotOkSeven saveOkBytes 0 ⟨some 9, some 0⟩ docOnePlot).doc.roots
      = [Root.plot 9 (orTruthy (some 0) 6)]
    ∧ (file_contents shotOkSeven saveOkBytes 0 ⟨some 9, some 0⟩ docOnePlot).contents
      = (shotOkSeven (file_contents shotOkSeven saveOkBytes 0 ⟨some 9, some 0⟩ docOnePlot).doc 0).bind saveOkBytes :=
  C4_nonzero_width_override shotOkSeven saveOkBytes 0 ⟨some 9, some 0⟩ docOnePlot
    5 6 9 rfl rfl (by decide)

/-- One more concrete file system for evaluating the theorems: empty
stdout and no files. -/
def fsEmpty : FileSys := ⟨[], []⟩

/-- Claim C5: `write_file` writes the bytes returned by `file_contents`
to the stdout stream when the filename is `'-'`, and otherwise writes
exactly those bytes to the named file; after the write it calls
`after_write_file` with the same args, filename and document (the
document object as left by `file_contents`). -/
theorem C5_write_file_routing {Image Err Driver : Type}
    (shot : Doc → Driver → Except Err Image) (save : Image → Except Err (List Nat))
    (driver : Driver) (args : Args) (filename : String) (doc : Doc)
    (fs : FileSys) (bs : List Nat)
    (hok : (file_contents shot save driver args doc).contents = Except.ok bs) :
    (write_file shot save driver args filename doc).events
      = (if filename = "-" then [Event.stdoutWrite bs]
         else [Event.fileOpen filename, Event.fileWrite filename bs,
           Event.fileClose filename])
        ++ [Event.afterWriteFile args filename (file_contents shot save driver args doc).doc]
    ∧ runEvents fs (write_file shot save driver args filename doc).events
      = (if filename = "-" then ⟨fs.stdout ++ bs, fs.files⟩
         else ⟨fs.stdout, setFile fs.files filename bs⟩)
    ∧ (write_file shot save driver args filename doc).result = Except.ok () := by
  have hev : (write_file shot save driver args filename doc).events
      = (if filename = "-" then [Event.stdoutWrite bs]
         else [Event.fileOpen filename, Event.fileWrite filename bs,
           Event.fileClose filename])
        ++ [Event.afterWriteFile args filename (file_contents shot save driver args doc).doc] := by
    simp [write_file, hok]
  refine ⟨hev, ?_, ?_⟩
  · rw [hev]
    by_cases hf : filename = "-"
    · simp [hf, runEvents, applyEvent]
    · rw [if_neg hf, if_neg hf]
      simpa using runEvents_fileTriple fs filename bs args
        (file_contents shot save driver args doc).doc
  · simp [write_file, hok]

/-- Witness for C5 on the stdout path (`filename = '-'`). -/
theorem C5_write_file_routing_witness :
    (write_file shotOkSeven saveOkBytes 0 argsNone "-" docOnePlot).events
      = (if "-" = "-" then [Event.stdoutWrite [7, 0, 7]]
         else [Event.fileOpen "-", Event.fileWrite "-" [7, 0, 7], Event.fileClose "-"])
        ++ [Event.afterWriteFile argsNone "-"
          (file_contents shotOkSeven saveOkBytes 0 argsNone docOnePlot).doc]
    ∧ runEvents fsPre (write_file shotOkSeven saveOkBytes 0 argsNone "-" docOnePlot).events
      = (if "-" = "-" then ⟨fsPre.stdout ++ [7, 0, 7], fsPre.files⟩
         else ⟨fsPre.stdout, setFile fsPre.files "-" [7, 0, 7]⟩)
    ∧ (write_file shotOkSeven saveOkBytes 0 argsNone "-" docOnePlot).result
      = Except.ok () :=
  C5_write_file_routing shotOkSeven saveOkBytes 0 argsNone "-" docOnePlot fsPre
    [7, 0, 7] rfl

/-- Claim C6: when `file_contents` raises, `write_file` produces no
output events at all — nothing reaches stdout, the named file is never
opened or created, the file system is untouched — and the exception
propagates. -/
theorem C6_write_file_error_no_output {Image Err Driver : Type}
    (shot : Doc → Driver → Except Err Image) (save : Image → Except Err (List Nat))
    (driver : Driver) (args : Args) (filename : String) (doc : Doc)
    (fs : FileSys) (e : Err)
    (herr : (file_contents shot save driver args doc).contents = Except.error e) :
    (write_file shot save driver args filename doc).events = []
    ∧ runEvents fs (write_file shot save driver args filename doc).events = fs
    ∧ (write_file shot save driver args filename doc).result = Except.error e := by
  have hev : (write_file shot save driver args filename doc).events = [] := by
    simp [write_file, herr]
  refine ⟨hev, ?_, ?_⟩
  · rw [hev]
    rfl
  · simp [write_file, herr]

/-- Witness for C6 with a screenshot routine that raises code 3. -/
theorem C6_write_file_error_no_output_witness :
    (write_file shotFail saveOkBytes 0 argsNone "out.png" docOnePlot).events = []
    ∧ runEvents fsPre (write_file shotFail saveOkBytes 0 argsNone "out.png" docOnePlot).events
      = fsPre
    ∧ (write_file shotFail saveOkBytes 0 argsNone "out.png" docOnePlot).result
      = Except.error 3 :=
  C6_write_file_error_no_output shotFail saveOkBytes 0 argsNone "out.png" docOnePlot
    fsPre 3 rfl

/-- Claim C7: with neither `--width` nor `--height` given,
`file_contents` leaves the document exactly as it was (the override
branch is never entered) and issues no warning. -/
theorem C7_no_size_args_doc_unchanged {Image Err Driver : Type}
    (shot : Doc → Driver → Except Err Image) (save : Image → Except Err (List Nat))
    (driver : Driver) (args : Args) (doc : Doc)
    (hw : args.width = none) (hh : args.height = none) :
    (file_contents shot save driver args doc).doc = doc
    ∧ (file_contents shot save driver args doc).warned = false := by
  constructor
  · rw [file_contents_doc]
    simp [size_step, hw, hh]
  · rw [file_contents_warned]
    simp [size_step, hw, hh]

/-- Witness for C7 on the 5-by-6 single-plot document. -/
theorem C7_no_size_args_doc_unchanged_witness :
    (file_contents shotOkSeven saveOkBytes 0 argsNone docOnePlot).doc = docOnePlot
    ∧ (file_contents shotOkSeven saveOkBytes 0 argsNone docOnePlot).warned = false :=
  C7_no_size_args_doc_unchanged shotOkSeven saveOkBytes 0 argsNone docOnePlot rfl rfl

/-- Claim C8: on a single-`Plot` document a `--height 0` is silently
treated as absent: the plot's height keeps its previous value (the
truthiness short-circuit `args.height or plot.plot_height`), the width is
governed by the same `orTruthy` rule, and no warning is issued. -/
theorem C8_zero_height_ignored {Image Err Driver : Type}
    (shot : Doc → Driver → Except Err Image) (save : Image → Except Err (List Nat))
    (driver : Driver) (args : Args) (doc : Doc) (pw ph : Int)
    (hroots : doc.roots = [Root.plot pw ph]) (hh : args.height = some 0) :
    (file_contents shot save driver args doc).doc.roots
      = [Root.plot (orTruthy args.width pw) ph]
    ∧ (file_contents shot save driver args doc).warned = false := by
  obtain ⟨roots⟩ := doc
  simp only at hroots
  subst hroots
  constructor
  · rw [file_contents_doc]
    simp [size_step, hh, orTruthy]
  · rw [file_contents_warned]
    simp [size_step, hh]

/-- Witness for C8 with `--height 0` and no `--width`. -/
theorem C8_zero_height_ignored_witness :
    (file_contents shotOkSeven saveOkBytes 0 ⟨none, some 0⟩ docOnePlot).doc.roots
      = [Root.plot (orTruthy none 5) 6]
    ∧ (file_contents shotOkSeven saveOkBytes 0 ⟨none, some 0⟩ docOnePlot).warned
      = false :=
  C8_zero_height_ignored shotOkSeven saveOkBytes 0 ⟨none, some 0⟩ docOnePlot 5 6
    rfl rfl

/-- Claim C9: on a single-`Plot` document each dimension is updated
independently by the `orTruthy` rule, so a dimension whose argument is
`None` keeps its previous value (`orTruthy none` is the identity). -/
theorem C9_absent_dimension_unchanged {Image Err Driver : Type}
    (shot : Doc → Driver → Except Err Image) (save : Image → Except Err (List Nat))
    (driver : Driver) (args : Args) (doc : Doc) (pw ph : Int)
    (hroots : doc.roots = [Root.plot pw ph]) :
    (file_contents shot save driver args doc).doc.roots
      = [Root.plot (orTruthy args.width pw) (orTruthy args.height ph)]
    ∧ orTruthy none pw = pw ∧ orTruthy none ph = ph := by
  obtain ⟨roots⟩ := doc
  simp only at hroots
  subst hroots
  refine ⟨?_, rfl, rfl⟩
  rw [file_contents_doc]
  obtain ⟨aw, ah⟩ := args
  cases aw <;> cases ah <;> simp [size_step, orTruthy]

/-- Witness for C9 with `--height 8` and no `--width`. -/
theorem C9_absent_dimension_unchanged_witness :
    (file_contents shotOkSeven saveOkBytes 0 ⟨none, some 8⟩ docOnePlot).doc.roots
      = [Root.plot (orTruthy none 5) (orTruthy (some 8) 6)]
    ∧ orTruthy none 5 = 5 ∧ orTruthy none 6 = 6 :=
  C9_absent_dimension_unchanged shotOkSeven saveOkBytes 0 ⟨none, some 8⟩ docOnePlot
    5 6 rfl

/-- Claim C10: for a filename other than `'-'` the file is opened in
truncating mode, so after `write_file` the file holds exactly the PNG
bytes — any pre-existing content is replaced, not appended to — and
stdout is untouched. -/
theorem C10_truncating_file_write {Image Err Driver : Type}
    (shot : Doc → Driver → Except Err Image) (save : Image → Except Err (List Nat))
    (driver : Driver) (args : Args) (filename : String) (doc : Doc)
    (fs : FileSys) (bs : List Nat)
    (hok : (file_contents shot save driver args doc).contents = Except.ok bs)
    (hname : filename ≠ "-") :
    getFile (runEvents fs (write_file shot save driver args filename doc).events).files
        filename = some bs
    ∧ (runEvents fs (write_file shot save driver args filename doc).events).stdout
      = fs.stdout := by
  have hev : (write_file shot save driver args filename doc).events
      = [Event.fileOpen filename, Event.fileWrite filename bs, Event.fileClose filename,
         Event.afterWriteFile args filename (file_contents shot save driver args doc).doc] := by
    simp [write_file, hok, hname]
  rw [hev, runEvents_fileTriple]
  exact ⟨getFile_setFile fs.files filename bs, rfl⟩

/-- Witness for C10: `out.png` already holds four bytes in `fsPre` and
ends up holding exactly the three PNG bytes. -/
theorem C10_truncating_file_write_witness :
    getFile (runEvents fsPre
        (write_file shotOkSeven saveOkBytes 0 argsNone "out.png" docOnePlot).events).files
        "out.png" = some [7, 0, 7]
    ∧ (runEvents fsPre
        (write_file shotOkSeven saveOkBytes 0 argsNone "out.png" docOnePlot).events).stdout
      = fsPre.stdout :=
  C10_truncating_file_write shotOkSeven saveOkBytes 0 argsNone "out.png" docOnePlot
    fsPre [7, 0, 7] rfl (by decide)

end BokehPng
